import Mathlib

/-!
Shallow embedding of the rocket-launch aerodynamics simulator core
(frontend/src/lib: atmosphere.ts, drag.ts, motors.ts, barrowman.ts, cg.ts,
simulation.ts, designToSim.ts, and the simulation run route).
All JavaScript numbers are modelled as real numbers.
-/

noncomputable section

namespace RocketSim

open Real

/-! ### Atmosphere model (atmosphere.ts) -/

def R_AIR : ℝ := 287.05

def T0 : ℝ := 288.15

def RHO0 : ℝ := 1.225

def LAPSE : ℝ := 0.0065

def TROPOPAUSE_ALT : ℝ := 11000

def T_TROP : ℝ := 216.65

/-- Temperature (K) vs altitude (m): linear lapse to 11 km, then constant. -/
def temperature (altitude : ℝ) : ℝ :=
  if altitude ≤ 0 then T0
  else if altitude ≤ TROPOPAUSE_ALT then T0 - LAPSE * altitude
  else T_TROP

/-- Sea-level pressure (Pa). -/
def P0 : ℝ := 101325

/-- Density (kg per cubic meter): exponential approximation. -/
def density (altitude : ℝ) : ℝ :=
  if altitude ≤ 0 then RHO0 else RHO0 * Real.exp (-altitude / 7400)

/-- Pressure via the ideal gas law on the same density and temperature models. -/
def pressure (altitude : ℝ) : ℝ :=
  density altitude * R_AIR * temperature altitude

def speedOfSound (altitude : ℝ) : ℝ :=
  Real.sqrt (1.4 * R_AIR * temperature altitude)

def machNumber (velocity altitude : ℝ) : ℝ :=
  if 0 < speedOfSound altitude then velocity / speedOfSound altitude else 0

/-! ### Drag model (drag.ts) -/

/-- Transonic branch of the drag curve (the 0.8 to 1.2 Mach band in the source). -/
def transonicCd (mach : ℝ) : ℝ :=
  let t := (mach - 0.8) / 0.4
  0.35 + t * (1.0 - 0.35) + 0.3 * Real.sin (Real.pi * t)

/-- Supersonic branch of the drag curve (above Mach 1.2 in the source). -/
def supersonicCd (mach : ℝ) : ℝ :=
  0.6 - 0.02 * min (mach - 1.2) 2

def dragCoefficient (mach : ℝ) : ℝ :=
  if mach < 0.8 then 0.35
  else if mach ≤ 1.2 then transonicCd mach
  else supersonicCd mach

def dragForceMagnitude (airDensity velocityMagnitude cd referenceAreaValue : ℝ) : ℝ :=
  0.5 * airDensity * velocityMagnitude * velocityMagnitude * cd * referenceAreaValue

/-! ### Motor catalog (motors.ts) -/

structure MotorSpec where
  id : String
  name : String
  totalImpulse : ℝ
  burnTime : ℝ
  propellantMass : ℝ
  dryMass : ℝ
  thrustAt : ℝ → ℝ

/-- Trapezoidal thrust curve; the source default ramp ratios are 0.1 and 0.2
and every catalog entry uses them. -/
def trapezoidalThrust (peakThrust burnTime rampUp rampDown : ℝ) : ℝ → ℝ :=
  let t1 := burnTime * rampUp
  let t2 := burnTime * (1 - rampDown)
  fun t =>
    if t ≤ 0 ∨ burnTime ≤ t then 0
    else if t < t1 then peakThrust * t / t1
    else if t ≤ t2 then peakThrust
    else peakThrust * (burnTime - t) / (burnTime - t2)

def estesA8 : MotorSpec :=
  { id := "estes-a8", name := "Estes A8", totalImpulse := 2.5, burnTime := 0.5,
    propellantMass := 0.006, dryMass := 0.012, thrustAt := trapezoidalThrust 5.5 0.5 0.1 0.2 }

def estesB6 : MotorSpec :=
  { id := "estes-b6", name := "Estes B6", totalImpulse := 5, burnTime := 0.8,
    propellantMass := 0.012, dryMass := 0.012, thrustAt := trapezoidalThrust 7.5 0.8 0.1 0.2 }

def estesC6 : MotorSpec :=
  { id := "estes-c6", name := "Estes C6", totalImpulse := 10, burnTime := 1.6,
    propellantMass := 0.024, dryMass := 0.012, thrustAt := trapezoidalThrust 9 1.6 0.1 0.2 }

def estesD12 : MotorSpec :=
  { id := "estes-d12", name := "Estes D12", totalImpulse := 20, burnTime := 2.2,
    propellantMass := 0.044, dryMass := 0.014, thrustAt := trapezoidalThrust 14 2.2 0.1 0.2 }

def customMid : MotorSpec :=
  { id := "custom-mid", name := "Custom Mid", totalImpulse := 50, burnTime := 3,
    propellantMass := 0.08, dryMass := 0.02, thrustAt := trapezoidalThrust 25 3 0.1 0.2 }

def MOTORS : List MotorSpec := [estesA8, estesB6, estesC6, estesD12, customMid]

def getMotor (id : String) : Option MotorSpec :=
  MOTORS.find? (fun m => m.id == id)

/-! ### Geometry and Barrowman center of pressure (barrowman.ts) -/

inductive NoseShape
  | cone
  | ogive
deriving DecidableEq

structure RocketGeometry where
  noseLength : ℝ
  noseShape : NoseShape
  bodyDiameter : ℝ
  bodyLength : ℝ
  finRootLeadingEdge : ℝ
  finRootChord : ℝ
  finTipChord : ℝ
  finSemispan : ℝ
  finSweep : ℝ
  numFins : ℕ

/-- A normal-force coefficient together with its pressure-center offset. -/
structure CNX where
  CN : ℝ
  X : ℝ

def noseTerms (ln : ℝ) (shape : NoseShape) : CNX :=
  { CN := 2, X := if shape = NoseShape.cone then 2 / 3 * ln else 0.466 * ln }

def finTerms (g : RocketGeometry) : CNX :=
  let d := g.bodyDiameter
  let R := d / 2
  let S := g.finSemispan
  let CR := g.finRootChord
  let CT := g.finTipChord
  let XR := g.finSweep
  let XB := g.finRootLeadingEdge
  let N : ℝ := g.numFins
  let K_FB := 1 + R / (S + R)
  let midChordHorizontal := XR + (CT - CR) / 2
  let LF := Real.sqrt (S * S + midChordHorizontal * midChordHorizontal)
  let denom := 1 + Real.sqrt (1 + (2 * LF / (CR + CT)) ^ 2)
  let CN_F := K_FB * (4 * N * (S / d) ^ 2) / denom
  let XF := XB + XR / 3 * ((CR + 2 * CT) / (CR + CT)) +
    1 / 6 * ((CR * CR + CT * CT + CR * CT) / (CR + CT))
  { CN := CN_F, X := XF }

def centerOfPressure (geometry : RocketGeometry) : ℝ :=
  let nose := noseTerms geometry.noseLength geometry.noseShape
  let fin := finTerms geometry
  let totalCN := nose.CN + fin.CN
  if totalCN ≤ 0 then 0 else (nose.CN * nose.X + fin.CN * fin.X) / totalCN

def referenceArea (geometry : RocketGeometry) : ℝ :=
  let r := geometry.bodyDiameter / 2
  Real.pi * r * r

def stabilityMarginCalibers (cpFromNose cgFromNose diameter : ℝ) : ℝ :=
  (cpFromNose - cgFromNose) / diameter

/-! ### Center of gravity (cg.ts) -/

structure MassComponent where
  positionFromNose : ℝ
  mass : ℝ

def computeCG (components : List MassComponent) : ℝ :=
  let sumMx := (components.map (fun c => c.mass * c.positionFromNose)).sum
  let sumM := (components.map (fun c => c.mass)).sum
  if sumM ≤ 0 then 0 else sumMx / sumM

structure CGParams where
  noseLength : ℝ
  bodyLength : ℝ
  bodyDiameter : ℝ
  finRootLeadingEdge : ℝ
  finRootChord : ℝ
  finTipChord : ℝ
  noseMass : Option ℝ
  bodyMass : ℝ
  finMass : ℝ
  payloadMass : ℝ
  payloadPosition : ℝ
  motorMass : ℝ
  motorPosition : ℝ

def NOSE_DENSITY : ℝ := 500

def buildCGComponents (p : CGParams) : List MassComponent :=
  let noseMass :=
    p.noseMass.getD (1 / 3 * Real.pi * (p.bodyDiameter / 2) ^ 2 * p.noseLength * NOSE_DENSITY)
  let finCenterX := p.finRootLeadingEdge + (p.finRootChord + p.finTipChord) / 4
  [{ positionFromNose := 3 / 4 * p.noseLength, mass := noseMass },
   { positionFromNose := p.noseLength + p.bodyLength / 2, mass := p.bodyMass },
   { positionFromNose := finCenterX, mass := p.finMass }] ++
    (if 0 < p.payloadMass then
      [{ positionFromNose := p.payloadPosition, mass := p.payloadMass }]
     else []) ++
    [{ positionFromNose := p.motorPosition, mass := p.motorMass }]

def centerOfGravity (p : CGParams) : ℝ :=
  computeCG (buildCGComponents p)

/-! ### Rocket design (types/rocket.ts) -/

structure RocketDesign where
  geometry : RocketGeometry
  bodyMass : ℝ
  finMass : ℝ
  noseMass : Option ℝ
  payloadMass : ℝ
  payloadPosition : ℝ
  motorId : String
  motorPosition : ℝ

/-! ### Simulation state and step (simulation.ts) -/

inductive Phase
  | pre
  | burn
  | coast
  | apogee
  | recovery
deriving DecidableEq

structure TrailPoint where
  altitude : ℝ
  velocity : ℝ
  mach : ℝ
  time : ℝ

structure SimulationState where
  time : ℝ
  altitude : ℝ
  velocity : ℝ
  acceleration : ℝ
  mass : ℝ
  mach : ℝ
  cd : ℝ
  airDensity : ℝ
  thrust : ℝ
  drag : ℝ
  phase : Phase
  apogee : ℝ
  trail : List TrailPoint

structure SimulationParams where
  referenceArea : ℝ
  dryMass : ℝ
  motor : MotorSpec
  motorStartTime : Option ℝ
  deployAtApogee : Option Bool
  maxTrailPoints : Option ℕ

def G : ℝ := 9.81

def MAX_TRAIL : ℕ := 500

def DT : ℝ := 1 / 60

/-- Thrust rises as ambient pressure drops toward vacuum. -/
def thrustAltitudeFactor (altitude : ℝ) : ℝ :=
  1 + 0.12 * (1 - max 0 (pressure altitude / P0))

def initialState (params : SimulationParams) : SimulationState :=
  { time := 0, altitude := 0, velocity := 0, acceleration := 0,
    mass := params.dryMass + params.motor.propellantMass + params.motor.dryMass,
    mach := 0, cd := dragCoefficient 0, airDensity := density 0,
    thrust := 0, drag := 0, phase := Phase.pre, apogee := 0, trail := [] }

/-- The burn-membership test of the step: motorStartTime ≤ t and t < motorStartTime + burnTime. -/
def inBurnWindow (motorStartTime burnTime t : ℝ) : Prop :=
  motorStartTime ≤ t ∧ t < motorStartTime + burnTime

instance (motorStartTime burnTime t : ℝ) : Decidable (inBurnWindow motorStartTime burnTime t) := by
  unfold inBurnWindow
  infer_instance

/-- The first two phase assignments of the step (pre to burn or coast, burn to coast). -/
def phaseAfterBurnCheck (statePhase : Phase) (motorStartTime burnTime t : ℝ) : Phase :=
  let phase1 :=
    if statePhase = Phase.pre ∧ motorStartTime ≤ t then
      (if inBurnWindow motorStartTime burnTime t then Phase.burn else Phase.coast)
    else statePhase
  if statePhase = Phase.burn ∧ ¬ inBurnWindow motorStartTime burnTime t then Phase.coast
  else phase1

/-- The complete phase assignment of the step, including the coast-to-apogee
test on negative velocity and the unconditional apogee-to-recovery move. -/
def nextPhase (statePhase : Phase) (motorStartTime burnTime t v : ℝ) : Phase :=
  let phase2 := phaseAfterBurnCheck statePhase motorStartTime burnTime t
  let phase3 := if phase2 = Phase.coast ∧ v < 0 then Phase.apogee else phase2
  if statePhase = Phase.apogee then Phase.recovery else phase3

def stepSimulation (state : SimulationState) (params : SimulationParams) (dt : ℝ) :
    SimulationState :=
  let motorStartTime := params.motorStartTime.getD 0
  let t := state.time + dt
  let h := state.altitude
  let v := state.velocity
  let burnTime := params.motor.burnTime
  let burnElapsed := if inBurnWindow motorStartTime burnTime t then t - motorStartTime else 0
  let mass :=
    if inBurnWindow motorStartTime burnTime t then
      params.dryMass + params.motor.dryMass + params.motor.propellantMass -
        burnElapsed / burnTime * params.motor.propellantMass
    else if motorStartTime + burnTime ≤ t ∧ state.phase = Phase.burn then
      params.dryMass + params.motor.dryMass
    else state.mass
  let thrustRaw :=
    if inBurnWindow motorStartTime burnTime t then params.motor.thrustAt burnElapsed else 0
  let thrust :=
    thrustRaw * (if inBurnWindow motorStartTime burnTime t then thrustAltitudeFactor h else 1)
  let rho := density h
  let mach := machNumber (abs v) h
  let cd := dragCoefficient mach
  let dragMag := dragForceMagnitude rho (abs v) cd params.referenceArea
  let drag := if 0 ≤ v then -dragMag else dragMag
  let gravity := -G * mass
  let netForce := thrust + drag + gravity
  let acceleration := if 0 < mass then netForce / mass else 0
  let newVelocity := v + acceleration * dt
  let newAltitude := max 0 (h + v * dt + 0.5 * acceleration * dt * dt)
  let apogeeNew :=
    if phaseAfterBurnCheck state.phase motorStartTime burnTime t = Phase.coast then
      max state.apogee h
    else state.apogee
  let trailPushed :=
    state.trail ++ [{ altitude := newAltitude, velocity := newVelocity, mach := mach, time := t }]
  let maxTrail := params.maxTrailPoints.getD MAX_TRAIL
  let trail := if maxTrail < trailPushed.length then trailPushed.tail else trailPushed
  { time := t, altitude := newAltitude, velocity := newVelocity, acceleration := acceleration,
    mass := mass, mach := mach, cd := cd, airDensity := rho, thrust := thrust, drag := drag,
    phase := nextPhase state.phase motorStartTime burnTime t v, apogee := apogeeNew,
    trail := trail }

def createSimulationState (params : SimulationParams) : SimulationState :=
  initialState params

/-- The trajectory obtained by iterating the step from the initial state. -/
def traj (params : SimulationParams) (dt : ℝ) : ℕ → SimulationState
  | 0 => createSimulationState params
  | n + 1 => stepSimulation (traj params dt n) params dt

/-! ### Design to simulation parameters (designToSim.ts) -/

def getSimParams (design : RocketDesign) : Option SimulationParams :=
  match getMotor design.motorId with
  | none => none
  | some motor =>
    let g := design.geometry
    let noseMass :=
      design.noseMass.getD (1 / 3 * Real.pi * (g.bodyDiameter / 2) ^ 2 * g.noseLength * 500)
    let dryMass :=
      noseMass + design.bodyMass + design.finMass + design.payloadMass + motor.dryMass
    some { referenceArea := referenceArea g, dryMass := dryMass, motor := motor,
           motorStartTime := some 0, deployAtApogee := some true, maxTrailPoints := some 500 }

structure PreLaunchResults where
  cp : ℝ
  cg : ℝ
  stabilityCalibers : ℝ
  isStable : Prop

def getPreLaunchResults (design : RocketDesign) : PreLaunchResults :=
  let g := design.geometry
  let cp := centerOfPressure g
  let cg := centerOfGravity
    { noseLength := g.noseLength, bodyLength := g.bodyLength, bodyDiameter := g.bodyDiameter,
      finRootLeadingEdge := g.finRootLeadingEdge, finRootChord := g.finRootChord,
      finTipChord := g.finTipChord, noseMass := design.noseMass, bodyMass := design.bodyMass,
      finMass := design.finMass, payloadMass := design.payloadMass,
      payloadPosition := design.payloadPosition,
      motorMass :=
        match getMotor design.motorId with
        | some m => m.propellantMass + m.dryMass
        | none => 0.03,
      motorPosition := design.motorPosition }
  { cp := cp, cg := cg, stabilityCalibers := (cp - cg) / g.bodyDiameter,
    isStable := 1 ≤ (cp - cg) / g.bodyDiameter }

/-- The same pre-launch analysis with the motor mass supplied directly;
used to state what the fallback computes. -/
def preLaunchResultsWithMotorMass (design : RocketDesign) (motorMass : ℝ) : PreLaunchResults :=
  let g := design.geometry
  let cp := centerOfPressure g
  let cg := centerOfGravity
    { noseLength := g.noseLength, bodyLength := g.bodyLength, bodyDiameter := g.bodyDiameter,
      finRootLeadingEdge := g.finRootLeadingEdge, finRootChord := g.finRootChord,
      finTipChord := g.finTipChord, noseMass := design.noseMass, bodyMass := design.bodyMass,
      finMass := design.finMass, payloadMass := design.payloadMass,
      payloadPosition := design.payloadPosition, motorMass := motorMass,
      motorPosition := design.motorPosition }
  { cp := cp, cg := cg, stabilityCalibers := (cp - cg) / g.bodyDiameter,
    isStable := 1 ≤ (cp - cg) / g.bodyDiameter }

def createInitialSimState (design : RocketDesign) : Option SimulationState :=
  (getSimParams design).map createSimulationState

/-! ### Trajectory run route (app/api/simulation/run/route.ts) -/

structure TelemetryPoint where
  time : ℝ
  altitude : ℝ
  velocity : ℝ

structure RunResult where
  states : List SimulationState
  telemetryHistory : List TelemetryPoint

/-- The stepping loop of the route, with the iteration guard as fuel. -/
def runAux (params : SimulationParams) (dt maxTime : ℝ) :
    ℕ → SimulationState → List SimulationState
  | 0, _ => []
  | n + 1, s =>
    if s.time < maxTime ∧ s.phase ≠ Phase.recovery then
      let s2 := stepSimulation s params dt
      s2 :: runAux params dt maxTime n s2
    else []

/-- The run route: reports an error when the motor does not resolve,
otherwise runs the loop at 1/60 s steps up to 120 s with the guard. -/
def runTrajectory (design : RocketDesign) : Except String RunResult :=
  match getSimParams design with
  | none => Except.error ("Invalid motor or design")
  | some params =>
    let s0 := createSimulationState params
    let states := s0 :: runAux params (1 / 60) 120 7210 s0
    Except.ok
      { states := states,
        telemetryHistory :=
          states.map (fun s => { time := s.time, altitude := s.altitude, velocity := s.velocity }) }

/-- Order of flight phases: pre, burn, coast, apogee, recovery. -/
def Phase.idx : Phase → ℕ
  | Phase.pre => 0
  | Phase.burn => 1
  | Phase.coast => 2
  | Phase.apogee => 3
  | Phase.recovery => 4

/-! ### Concrete example inputs used by witnesses and counterexamples -/

def gEx : RocketGeometry :=
  { noseLength := 0.3, noseShape := NoseShape.cone, bodyDiameter := 0.024, bodyLength := 0.6,
    finRootLeadingEdge := 0.7, finRootChord := 0.05, finTipChord := 0.03, finSemispan := 0.04,
    finSweep := 0.01, numFins := 3 }

/-- Same geometry with zero fin semispan, which forces the fin coefficient to 0. -/
def gExNoFin : RocketGeometry :=
  { noseLength := 0.3, noseShape := NoseShape.cone, bodyDiameter := 0.024, bodyLength := 0.6,
    finRootLeadingEdge := 0.7, finRootChord := 0.05, finTipChord := 0.03, finSemispan := 0,
    finSweep := 0.01, numFins := 3 }

def dEx : RocketDesign :=
  { geometry := gEx, bodyMass := 0.1, finMass := 0.02, noseMass := some 0.05,
    payloadMass := 0.03, payloadPosition := 0.35, motorId := "estes-c6", motorPosition := 0.85 }

/-- A design whose motor identifier is absent from the catalog. -/
def dExGhost : RocketDesign :=
  { geometry := gEx, bodyMass := 0.1, finMass := 0.02, noseMass := some 0.05,
    payloadMass := 0.03, payloadPosition := 0.35, motorId := "ghost", motorPosition := 0.85 }

/-- The simulation parameters that getSimParams produces for dEx. -/
def pEx : SimulationParams :=
  { referenceArea := referenceArea gEx,
    dryMass := 0.05 + 0.1 + 0.02 + 0.03 + estesC6.dryMass, motor := estesC6,
    motorStartTime := some 0, deployAtApogee := some true, maxTrailPoints := some 500 }

/-- An arbitrary state in phase apogee, used to exercise the phase rules. -/
def sApogee : SimulationState :=
  { time := 5, altitude := 100, velocity := -1, acceleration := 0, mass := 0.2, mach := 0,
    cd := 0.35, airDensity := 1.225, thrust := 0, drag := 0, phase := Phase.apogee,
    apogee := 100, trail := [] }

/-- An arbitrary state in phase recovery, used to exercise the phase rules. -/
def sRecovery : SimulationState :=
  { time := 6, altitude := 80, velocity := -5, acceleration := 0, mass := 0.2, mach := 0,
    cd := 0.35, airDensity := 1.225, thrust := 0, drag := 0, phase := Phase.recovery,
    apogee := 100, trail := [] }

/-! ### Helper lemmas -/

theorem transonicCd_eq (m : ℝ) :
    transonicCd m = 0.35 + (m - 0.8) / 0.4 * (1.0 - 0.35) +
      0.3 * Real.sin (Real.pi * ((m - 0.8) / 0.4)) := rfl

theorem noseTerms_CN (ln : ℝ) (shape : NoseShape) : (noseTerms ln shape).CN = 2 := rfl

theorem noseTerms_X (ln : ℝ) (shape : NoseShape) :
    (noseTerms ln shape).X =
      (if shape = NoseShape.cone then 2 / 3 * ln else 0.466 * ln) := rfl

theorem centerOfPressure_eq (g : RocketGeometry) :
    centerOfPressure g =
      if (noseTerms g.noseLength g.noseShape).CN + (finTerms g).CN ≤ 0 then 0
      else
        ((noseTerms g.noseLength g.noseShape).CN * (noseTerms g.noseLength g.noseShape).X +
            (finTerms g).CN * (finTerms g).X) /
          ((noseTerms g.noseLength g.noseShape).CN + (finTerms g).CN) := rfl

theorem sin_le_self {x : ℝ} (hx : 0 ≤ x) : Real.sin x ≤ x := by
  rcases hx.eq_or_lt with h | h
  · simp [← h]
  · exact (Real.sin_lt h).le

theorem transonic_formula_bounds {t : ℝ} (h0 : 0 ≤ t) (h1 : t ≤ 1) :
    0.35 ≤ 0.35 + t * (1.0 - 0.35) + 0.3 * Real.sin (Real.pi * t) ∧
    0.35 + t * (1.0 - 0.35) + 0.3 * Real.sin (Real.pi * t) ≤ 1.1 := by
  have hsin0 : 0 ≤ Real.sin (Real.pi * t) := by
    refine Real.sin_nonneg_of_nonneg_of_le_pi (by positivity) ?_
    nlinarith [Real.pi_pos]
  constructor
  · nlinarith
  · rcases le_or_lt t 0.68 with hc | hc
    · have hs1 : Real.sin (Real.pi * t) ≤ 1 := Real.sin_le_one _
      nlinarith
    · have heq : Real.sin (Real.pi * t) = Real.sin (Real.pi * (1 - t)) := by
        rw [show Real.pi * (1 - t) = Real.pi - Real.pi * t by ring, Real.sin_pi_sub]
      have hle : Real.sin (Real.pi * (1 - t)) ≤ Real.pi * (1 - t) := by
        refine sin_le_self ?_
        nlinarith [Real.pi_pos]
      have hpi : Real.pi < 3.15 := Real.pi_lt_d2
      nlinarith [mul_nonneg (sub_nonneg.mpr hpi.le) (sub_nonneg.mpr h1), heq, hle]

theorem transonicCd_bounds {m : ℝ} (h1 : 0.8 ≤ m) (h2 : m ≤ 1.2) :
    0.35 ≤ transonicCd m ∧ transonicCd m ≤ 1.1 := by
  have ht0 : 0 ≤ (m - 0.8) / 0.4 := div_nonneg (by linarith) (by norm_num)
  have ht1 : (m - 0.8) / 0.4 ≤ 1 := by
    rw [div_le_one (by norm_num)]
    linarith
  simpa [transonicCd] using transonic_formula_bounds ht0 ht1

theorem step_time (s : SimulationState) (p : SimulationParams) (dt : ℝ) :
    (stepSimulation s p dt).time = s.time + dt := rfl

theorem step_phase (s : SimulationState) (p : SimulationParams) (dt : ℝ) :
    (stepSimulation s p dt).phase =
      nextPhase s.phase (p.motorStartTime.getD 0) p.motor.burnTime (s.time + dt)
        s.velocity := rfl

theorem step_mass (s : SimulationState) (p : SimulationParams) (dt : ℝ) :
    (stepSimulation s p dt).mass =
      if inBurnWindow (p.motorStartTime.getD 0) p.motor.burnTime (s.time + dt) then
        p.dryMass + p.motor.dryMass + p.motor.propellantMass -
          (s.time + dt - p.motorStartTime.getD 0) / p.motor.burnTime * p.motor.propellantMass
      else if p.motorStartTime.getD 0 + p.motor.burnTime ≤ s.time + dt ∧
          s.phase = Phase.burn then
        p.dryMass + p.motor.dryMass
      else s.mass := by
  by_cases hc : inBurnWindow (p.motorStartTime.getD 0) p.motor.burnTime (s.time + dt)
  · simp [stepSimulation, hc]
  · simp [stepSimulation, hc]

theorem traj_time (p : SimulationParams) (dt : ℝ) (n : ℕ) :
    (traj p dt n).time = n * dt := by
  induction n with
  | zero => simp [traj, createSimulationState, initialState]
  | succ n ih =>
    show (stepSimulation (traj p dt n) p dt).time = _
    rw [step_time, ih]
    push_cast
    ring

theorem nextPhase_pre_inBurn {m B t v : ℝ} (hin : inBurnWindow m B t) (hm : m ≤ t) :
    nextPhase Phase.pre m B t v = Phase.burn := by
  unfold nextPhase phaseAfterBurnCheck
  simp [hin, hm]

theorem nextPhase_burn_inBurn {m B t v : ℝ} (hin : inBurnWindow m B t) :
    nextPhase Phase.burn m B t v = Phase.burn := by
  unfold nextPhase phaseAfterBurnCheck
  simp [hin]

theorem nextPhase_burn_notInBurn {m B t v : ℝ} (hin : ¬ inBurnWindow m B t) :
    nextPhase Phase.burn m B t v = (if v < 0 then Phase.apogee else Phase.coast) := by
  unfold nextPhase phaseAfterBurnCheck
  simp [hin]

theorem nextPhase_coast {m B t v : ℝ} :
    nextPhase Phase.coast m B t v = (if v < 0 then Phase.apogee else Phase.coast) := by
  unfold nextPhase phaseAfterBurnCheck
  simp

theorem nextPhase_apogee {m B t v : ℝ} :
    nextPhase Phase.apogee m B t v = Phase.recovery := by
  unfold nextPhase phaseAfterBurnCheck
  simp

theorem nextPhase_recovery {m B t v : ℝ} :
    nextPhase Phase.recovery m B t v = Phase.recovery := by
  unfold nextPhase phaseAfterBurnCheck
  simp

/-- The sample the step appends to the trail. -/
def stepSample (s : SimulationState) (p : SimulationParams) (dt : ℝ) : TrailPoint :=
  { altitude := (stepSimulation s p dt).altitude, velocity := (stepSimulation s p dt).velocity,
    mach := (stepSimulation s p dt).mach, time := s.time + dt }

theorem step_trail (s : SimulationState) (p : SimulationParams) (dt : ℝ) :
    (stepSimulation s p dt).trail =
      if p.maxTrailPoints.getD MAX_TRAIL < (s.trail ++ [stepSample s p dt]).length then
        (s.trail ++ [stepSample s p dt]).tail
      else s.trail ++ [stepSample s p dt] := rfl

/-! ### Claims -/

/-- C5: the step computes the semi-implicit Euler update: the new velocity is
velocity plus acceleration times dt, the new altitude is the floored-at-zero
quadratic update, every output altitude is nonnegative, and the initial state
has altitude 0. -/
theorem step_kinematics (s : SimulationState) (p : SimulationParams) (dt : ℝ) :
    (stepSimulation s p dt).velocity = s.velocity + (stepSimulation s p dt).acceleration * dt ∧
    (stepSimulation s p dt).altitude =
      max 0 (s.altitude + s.velocity * dt +
        0.5 * (stepSimulation s p dt).acceleration * dt * dt) ∧
    0 ≤ (stepSimulation s p dt).altitude ∧
    (createSimulationState p).altitude = 0 :=
  ⟨rfl, rfl, le_max_left 0 _, rfl⟩

/-- C9: for altitudes 0 ≤ h1 < h2, density strictly decreases and temperature
does not increase, and pressure is exactly density times 287.05 times
temperature. -/
theorem atmosphere_monotone_and_gas_law (h1 h2 : ℝ) (hnn : 0 ≤ h1) (hlt : h1 < h2) :
    density h2 < density h1 ∧ temperature h2 ≤ temperature h1 ∧
    pressure h1 = density h1 * 287.05 * temperature h1 ∧
    pressure h2 = density h2 * 287.05 * temperature h2 := by
  refine ⟨?_, ?_, rfl, rfl⟩
  · unfold density RHO0
    split_ifs with ha hb hb
    · linarith
    · linarith
    · have hx : -h2 / 7400 < 0 := by
        have : (0 : ℝ) < h2 := by linarith
        have : (0 : ℝ) < h2 / 7400 := by positivity
        linarith
      have hexp : Real.exp (-h2 / 7400) < 1 := by
        calc Real.exp (-h2 / 7400) < Real.exp 0 := Real.exp_lt_exp.mpr hx
        _ = 1 := Real.exp_zero
      nlinarith
    · have hx : -h2 / 7400 < -h1 / 7400 := by linarith
      have hexp : Real.exp (-h2 / 7400) < Real.exp (-h1 / 7400) := Real.exp_lt_exp.mpr hx
      nlinarith
  · unfold temperature T0 LAPSE TROPOPAUSE_ALT T_TROP
    split_ifs <;> linarith

/-- C9 witness at h1 = 0, h2 = 1. -/
theorem atmosphere_monotone_and_gas_law_witness :
    (0 : ℝ) ≤ 0 ∧ (0 : ℝ) < 1 ∧ pressure 0 = density 0 * 287.05 * temperature 0 :=
  ⟨le_refl 0, by norm_num,
    (atmosphere_monotone_and_gas_law 0 1 (le_refl 0) (by norm_num)).2.2.1⟩

/-- C2 counterexample: the drag curve takes the transonic branch at mach 1.2,
where that branch is worth 1.0, while the supersonic branch is worth 0.6 at
mach 1.2, so the two branches do not agree at the supersonic edge. -/
theorem dragCoefficient_jump_at_supersonic_edge :
    dragCoefficient 1.2 = transonicCd 1.2 ∧ transonicCd 1.2 = 1 ∧
    supersonicCd 1.2 = 0.6 ∧ (1 : ℝ) ≠ 0.6 := by
  refine ⟨?_, ?_, ?_, by norm_num⟩
  · unfold dragCoefficient
    norm_num
  · rw [transonicCd_eq, show ((1.2 : ℝ) - 0.8) / 0.4 = 1 by norm_num, mul_one, Real.sin_pi]
    norm_num
  · unfold supersonicCd
    rw [show ((1.2 : ℝ) - 1.2) = 0 by norm_num,
      show min (0 : ℝ) 2 = 0 from min_eq_left (by norm_num)]
    norm_num

/-- C2 amended: the curve is continuous at mach 0.8 (the transonic branch
meets the subsonic constant 0.35 there), but at mach 1.2 it is worth 1.0
from the transonic branch while the supersonic branch gives
0.6 minus 0.02 per unit mach above 1.2, so the curve jumps by 0.4 at the
supersonic edge. -/
theorem dragCoefficient_edge_values (m1 m2 : ℝ) (hm1 : m1 < 0.8) (hm2 : 1.2 < m2)
    (hm2b : m2 ≤ 3.2) :
    dragCoefficient m1 = 0.35 ∧ dragCoefficient 0.8 = 0.35 ∧ dragCoefficient 1.2 = 1 ∧
    dragCoefficient m2 = 0.6 - 0.02 * (m2 - 1.2) := by
  refine ⟨?_, ?_, ?_, ?_⟩
  · unfold dragCoefficient
    rw [if_pos hm1]
  · unfold dragCoefficient
    rw [if_neg (by norm_num), if_pos (by norm_num), transonicCd_eq,
      show ((0.8 : ℝ) - 0.8) / 0.4 = 0 by norm_num, mul_zero, Real.sin_zero]
    norm_num
  · unfold dragCoefficient
    rw [if_neg (by norm_num), if_pos (by norm_num), transonicCd_eq,
      show ((1.2 : ℝ) - 0.8) / 0.4 = 1 by norm_num, mul_one, Real.sin_pi]
    norm_num
  · unfold dragCoefficient supersonicCd
    rw [if_neg (by linarith), if_neg (by linarith),
      show min (m2 - 1.2) 2 = m2 - 1.2 from min_eq_left (by linarith)]

/-- C2 witness at m1 = 0 and m2 = 1.4. -/
theorem dragCoefficient_edge_values_witness :
    dragCoefficient 0 = 0.35 ∧ dragCoefficient 1.4 = 0.6 - 0.02 * (1.4 - 1.2) :=
  ⟨(dragCoefficient_edge_values 0 1.4 (by norm_num) (by norm_num) (by norm_num)).1,
    (dragCoefficient_edge_values 0 1.4 (by norm_num) (by norm_num) (by norm_num)).2.2.2⟩

/-- C7: when the fin normal-force coefficient is 0, the center of pressure is
exactly the nose-only offset: two thirds of the nose length for a cone and
0.466 of the nose length for an ogive. -/
theorem cp_nose_only (g : RocketGeometry) (hfin : (finTerms g).CN = 0) :
    centerOfPressure g =
      (if g.noseShape = NoseShape.cone then 2 / 3 * g.noseLength
       else 0.466 * g.noseLength) := by
  rw [centerOfPressure_eq, hfin, noseTerms_CN, noseTerms_X]
  rw [if_neg (by norm_num)]
  ring_nf

/-- C7 witness: the example geometry with zero fin semispan. -/
theorem cp_nose_only_witness :
    (finTerms gExNoFin).CN = 0 ∧ centerOfPressure gExNoFin = 2 / 3 * 0.3 := by
  have hfin : (finTerms gExNoFin).CN = 0 := by
    simp [finTerms, gExNoFin]
  exact ⟨hfin, (cp_nose_only gExNoFin hfin).trans (by simp [gExNoFin])⟩

/-- C10: the drag coefficient always lies between 0.35 and 1.1, is never
zero, and equals 0.35 exactly below mach 0.8, negative mach included. -/
theorem dragCoefficient_bounds (m : ℝ) :
    0.35 ≤ dragCoefficient m ∧ dragCoefficient m ≤ 1.1 ∧ dragCoefficient m ≠ 0 ∧
    (m < 0.8 → dragCoefficient m = 0.35) := by
  unfold dragCoefficient
  split_ifs with hsub htrans
  · exact ⟨le_refl _, by norm_num, by norm_num, fun _ => rfl⟩
  · obtain ⟨hlo, hhi⟩ := transonicCd_bounds (not_lt.mp hsub) htrans
    exact ⟨hlo, hhi, by intro h; rw [h] at hlo; norm_num at hlo,
      fun hm => absurd hm hsub⟩
  · have hgt : (1.2 : ℝ) < m := not_le.mp htrans
    have hminle : min (m - 1.2) 2 ≤ 2 := min_le_right _ _
    have hminge : (0 : ℝ) ≤ min (m - 1.2) 2 := le_min (by linarith) (by norm_num)
    unfold supersonicCd
    refine ⟨by nlinarith, by nlinarith, ?_, fun hm => absurd hm hsub⟩
    intro h
    nlinarith

/-- C10 witness at m = -1. -/
theorem dragCoefficient_bounds_witness :
    dragCoefficient (-1) = 0.35 ∧ 0.35 ≤ dragCoefficient (-1) :=
  ⟨(dragCoefficient_bounds (-1)).2.2.2 (by norm_num), (dragCoefficient_bounds (-1)).1⟩

/-- Invariant along the trajectory grid with ignition at time 0 and a
timestep shorter than the burn: before the first step the state is pre at
full wet mass; on grid points inside the burn window the phase is burn and
the mass follows linear depletion; on grid points at or past burnout the
phase is past burn and the mass is dry mass plus motor dry mass. -/
theorem traj_mass_phase_invariant (p : SimulationParams) (dt : ℝ)
    (hms : p.motorStartTime.getD 0 = 0) (hdt : 0 < dt) (hB : dt < p.motor.burnTime) (n : ℕ) :
    (n = 0 → (traj p dt n).phase = Phase.pre ∧
      (traj p dt n).mass = p.dryMass + p.motor.propellantMass + p.motor.dryMass) ∧
    (1 ≤ n → (n : ℝ) * dt < p.motor.burnTime →
      (traj p dt n).phase = Phase.burn ∧
      (traj p dt n).mass = p.dryMass + p.motor.dryMass +
        p.motor.propellantMass * (1 - (n : ℝ) * dt / p.motor.burnTime)) ∧
    (p.motor.burnTime ≤ (n : ℝ) * dt →
      (traj p dt n).phase ≠ Phase.pre ∧ (traj p dt n).phase ≠ Phase.burn ∧
      (traj p dt n).mass = p.dryMass + p.motor.dryMass) := by
  induction n with
  | zero =>
    refine ⟨fun _ => ⟨rfl, rfl⟩, fun h1 _ => absurd h1 (by norm_num), fun hb0 => ?_⟩
    exfalso
    push_cast at hb0
    nlinarith
  | succ n ih =>
    have htn : (traj p dt n).time = (n : ℝ) * dt := traj_time p dt n
    have htsum : ((n + 1 : ℕ) : ℝ) * dt = (n : ℝ) * dt + dt := by push_cast; ring
    have hnext : traj p dt (n + 1) = stepSimulation (traj p dt n) p dt := rfl
    have hstep_t : (traj p dt n).time + dt = ((n + 1 : ℕ) : ℝ) * dt := by
      rw [htn, htsum]
    have htpos : 0 < ((n + 1 : ℕ) : ℝ) * dt := by
      have : (0 : ℝ) < ((n + 1 : ℕ) : ℝ) := by push_cast; positivity
      positivity
    refine ⟨fun h0 => absurd h0 (Nat.succ_ne_zero n), fun _ hlt => ?_, fun hge => ?_⟩
    · -- grid point inside the burn window
      have hwin : inBurnWindow (p.motorStartTime.getD 0) p.motor.burnTime
          ((traj p dt n).time + dt) := by
        rw [hstep_t, hms]
        exact ⟨htpos.le, by rw [zero_add]; exact hlt⟩
      constructor
      · rw [hnext, step_phase]
        rcases Nat.eq_zero_or_pos n with hn0 | hn1
        · have hpre : (traj p dt n).phase = Phase.pre := ((ih.1) hn0).1
          rw [hpre]
          exact nextPhase_pre_inBurn hwin hwin.1
        · have hprev_lt : (n : ℝ) * dt < p.motor.burnTime := by
            rw [htsum] at hlt
            nlinarith
          have hburn : (traj p dt n).phase = Phase.burn := (ih.2.1 hn1 hprev_lt).1
          rw [hburn]
          exact nextPhase_burn_inBurn hwin
      · rw [hnext, step_mass, if_pos hwin, hstep_t, hms]
        have hBpos : (0 : ℝ) < p.motor.burnTime := lt_trans hdt hB
        field_simp
        ring
    · -- grid point at or past burnout
      rw [htsum] at hge
      have hnotwin : ¬ inBurnWindow (p.motorStartTime.getD 0) p.motor.burnTime
          ((traj p dt n).time + dt) := by
        rw [hstep_t, hms, htsum]
        intro hwin
        have hw2 := hwin.2
        rw [zero_add] at hw2
        linarith
      rcases lt_or_le ((n : ℝ) * dt) p.motor.burnTime with hprev | hprev
      · -- the previous grid point was still inside the burn: the mass snaps
        have hn1 : 1 ≤ n := by
          by_contra hn0
          push_neg at hn0
          interval_cases n
          · simp only [Nat.cast_zero, zero_mul, zero_add] at hge
            linarith
        have hburn : (traj p dt n).phase = Phase.burn := (ih.2.1 hn1 hprev).1
        refine ⟨?_, ?_, ?_⟩
        · rw [hnext, step_phase, hburn, nextPhase_burn_notInBurn hnotwin]
          split_ifs <;> simp
        · rw [hnext, step_phase, hburn, nextPhase_burn_notInBurn hnotwin]
          split_ifs <;> simp
        · rw [hnext, step_mass, if_neg hnotwin, if_pos ?_]
          refine ⟨?_, hburn⟩
          rw [hstep_t, hms, htsum, zero_add]
          exact hge
      · -- the previous grid point was already past burnout: nothing changes
        obtain ⟨hnp, hnb, hnm⟩ := ih.2.2 hprev
        have hmass : (traj p dt (n + 1)).mass = (traj p dt n).mass := by
          rw [hnext, step_mass, if_neg hnotwin, if_neg ?_]
          intro hc
          exact hnb hc.2
        refine ⟨?_, ?_, ?_⟩
        · rw [hnext, step_phase]
          cases hc : (traj p dt n).phase
          · exact absurd hc hnp
          · exact absurd hc hnb
          · rw [nextPhase_coast]
            split_ifs <;> simp
          · rw [nextPhase_apogee]
            simp
          · rw [nextPhase_recovery]
            simp
        · rw [hnext, step_phase]
          cases hc : (traj p dt n).phase
          · exact absurd hc hnp
          · exact absurd hc hnb
          · rw [nextPhase_coast]
            split_ifs <;> simp
          · rw [nextPhase_apogee]
            simp
          · rw [nextPhase_recovery]
            simp
        · rw [hmass, hnm]

/-- C4: along the trajectory (ignition at 0, timestep inside the burn, as in
every run the program makes), the mass equals the full wet mass before
ignition, follows linear propellant depletion on grid points inside the burn
window and is monotonically non-increasing there, and equals dry mass plus
motor dry mass at and after burnout. -/
theorem mass_along_trajectory (p : SimulationParams) (dt : ℝ) (n : ℕ)
    (hms : p.motorStartTime.getD 0 = 0) (hdt : 0 < dt) (hB : dt < p.motor.burnTime)
    (hP : 0 ≤ p.motor.propellantMass) :
    ((n : ℝ) * dt ≤ 0 →
      (traj p dt n).mass = p.dryMass + p.motor.propellantMass + p.motor.dryMass) ∧
    (0 < (n : ℝ) * dt → (n : ℝ) * dt < p.motor.burnTime →
      (traj p dt n).mass = p.dryMass + p.motor.dryMass +
        p.motor.propellantMass * (1 - (n : ℝ) * dt / p.motor.burnTime)) ∧
    (p.motor.burnTime ≤ (n : ℝ) * dt →
      (traj p dt n).mass = p.dryMass + p.motor.dryMass) ∧
    (0 < (n : ℝ) * dt → ((n : ℝ) + 1) * dt < p.motor.burnTime →
      (traj p dt (n + 1)).mass ≤ (traj p dt n).mass) := by
  have inv := traj_mass_phase_invariant p dt hms hdt hB
  have hpos : ∀ m : ℕ, 0 < (m : ℝ) * dt → 1 ≤ m := by
    intro m hm
    rcases Nat.eq_zero_or_pos m with h0 | h1
    · exfalso
      rw [h0] at hm
      push_cast at hm
      linarith
    · exact h1
  refine ⟨?_, ?_, fun hge => ((inv n).2.2 hge).2.2, ?_⟩
  · intro hle
    have hn0 : n = 0 := by
      rcases Nat.eq_zero_or_pos n with h0 | h1
      · exact h0
      · exfalso
        have : (0 : ℝ) < (n : ℝ) * dt := by
          have : (0 : ℝ) < (n : ℝ) := by exact_mod_cast h1
          positivity
        linarith
    exact ((inv n).1 hn0).2
  · intro hpos0 hlt
    exact ((inv n).2.1 (hpos n hpos0) hlt).2
  · intro hpos0 hlt1
    have hlt0 : (n : ℝ) * dt < p.motor.burnTime := by nlinarith
    have hcast : ((n + 1 : ℕ) : ℝ) * dt = ((n : ℝ) + 1) * dt := by push_cast; ring
    have h1 : (traj p dt n).mass = p.dryMass + p.motor.dryMass +
        p.motor.propellantMass * (1 - (n : ℝ) * dt / p.motor.burnTime) :=
      ((inv n).2.1 (hpos n hpos0) hlt0).2
    have h2 : (traj p dt (n + 1)).mass = p.dryMass + p.motor.dryMass +
        p.motor.propellantMass * (1 - ((n + 1 : ℕ) : ℝ) * dt / p.motor.burnTime) := by
      refine ((inv (n + 1)).2.1 (by omega) ?_).2
      rw [hcast]
      exact hlt1
    have hBpos : (0 : ℝ) < p.motor.burnTime := lt_trans hdt hB
    rw [h1, h2, hcast]
    have hfrac : (n : ℝ) * dt / p.motor.burnTime ≤ ((n : ℝ) + 1) * dt / p.motor.burnTime :=
      (div_le_div_iff_of_pos_right hBpos).mpr (by nlinarith)
    nlinarith

/-- C4 witness: one step into the burn of the example parameters. -/
theorem mass_along_trajectory_witness :
    pEx.motorStartTime.getD 0 = 0 ∧ (0 : ℝ) < 1 / 60 ∧ (1 : ℝ) / 60 < pEx.motor.burnTime ∧
    (0 : ℝ) ≤ pEx.motor.propellantMass ∧
    (traj pEx (1 / 60) 1).mass = pEx.dryMass + pEx.motor.dryMass +
      pEx.motor.propellantMass * (1 - ((1 : ℕ) : ℝ) * (1 / 60) / pEx.motor.burnTime) := by
  refine ⟨rfl, by norm_num, by norm_num [pEx, estesC6], by norm_num [pEx, estesC6], ?_⟩
  exact (mass_along_trajectory pEx (1 / 60) 1 rfl (by norm_num) (by norm_num [pEx, estesC6])
    (by norm_num [pEx, estesC6])).2.1 (by norm_num) (by norm_num [pEx, estesC6])

/-- C1 counterexample: for the example design the initial drag coefficient is
0.35, not zero, and the initial mass is 0.248, not the 0.236 obtained when
the motor casing mass is counted once, because getSimParams already includes
the casing in dryMass and initialState adds it again. -/
theorem initial_state_claim_counterexample :
    getSimParams dEx = some pEx ∧ (createSimulationState pEx).cd ≠ 0 ∧
    (createSimulationState pEx).mass ≠ 0.05 + 0.1 + 0.02 + 0.03 + 0.012 + 0.024 := by
  refine ⟨rfl, ?_, ?_⟩
  · show dragCoefficient 0 ≠ 0
    unfold dragCoefficient
    norm_num
  · show pEx.dryMass + pEx.motor.propellantMass + pEx.motor.dryMass ≠ _
    norm_num [pEx, estesC6]

/-- C1 amended: for a design whose motor resolves, the initial state has
phase pre, time 0, empty trail, zero thrust and drag, mach 0, drag
coefficient 0.35 (the value of dragCoefficient at mach 0), and a wet mass
equal to nose, body, fin and payload masses plus twice the motor casing
mass plus the propellant mass: the casing is counted both inside
getSimParams dryMass and again by initialState. -/
theorem initial_state_fields (design : RocketDesign) (p : SimulationParams)
    (hp : getSimParams design = some p) :
    (createSimulationState p).phase = Phase.pre ∧ (createSimulationState p).time = 0 ∧
    (createSimulationState p).trail = [] ∧ (createSimulationState p).thrust = 0 ∧
    (createSimulationState p).drag = 0 ∧ (createSimulationState p).mach = 0 ∧
    (createSimulationState p).cd = 0.35 ∧
    (createSimulationState p).mass =
      design.noseMass.getD
          (1 / 3 * Real.pi * (design.geometry.bodyDiameter / 2) ^ 2 *
            design.geometry.noseLength * 500) +
        design.bodyMass + design.finMass + design.payloadMass +
        2 * p.motor.dryMass + p.motor.propellantMass := by
  refine ⟨rfl, rfl, rfl, rfl, rfl, rfl, ?_, ?_⟩
  · show dragCoefficient 0 = 0.35
    unfold dragCoefficient
    norm_num
  · unfold getSimParams at hp
    cases hmot : getMotor design.motorId with
    | none =>
      rw [hmot] at hp
      exact absurd hp (by simp)
    | some m =>
      rw [hmot] at hp
      obtain rfl := Option.some.inj hp
      show _ + _ + _ = _
      ring

/-- C1 witness: the example design with the resolved C6 motor. -/
theorem initial_state_fields_witness :
    getSimParams dEx = some pEx ∧ (createSimulationState pEx).cd = 0.35 ∧
    (createSimulationState pEx).mass = 0.05 + 0.1 + 0.02 + 0.03 + 2 * 0.012 + 0.024 := by
  refine ⟨rfl, (initial_state_fields dEx pEx rfl).2.2.2.2.2.2.1, ?_⟩
  have h := (initial_state_fields dEx pEx rfl).2.2.2.2.2.2.2
  rw [h]
  norm_num [dEx, pEx, estesC6]

/-- C3: the step never regresses the flight phase in the order
pre, burn, coast, apogee, recovery; a state in phase apogee steps to
recovery unconditionally, and recovery is preserved by every step. -/
theorem phase_monotone (s : SimulationState) (p : SimulationParams) (dt : ℝ) :
    Phase.idx s.phase ≤ Phase.idx (stepSimulation s p dt).phase ∧
    (s.phase = Phase.apogee → (stepSimulation s p dt).phase = Phase.recovery) ∧
    (s.phase = Phase.recovery → (stepSimulation s p dt).phase = Phase.recovery) := by
  rw [step_phase]
  cases hsp : s.phase <;>
    simp only [nextPhase, phaseAfterBurnCheck, Phase.idx] <;>
    split_ifs <;>
    simp_all [Phase.idx]

/-- C3 witness: a state in apogee moves to recovery, a state in recovery
stays in recovery. -/
theorem phase_monotone_witness :
    (stepSimulation sApogee pEx DT).phase = Phase.recovery ∧
    (stepSimulation sRecovery pEx DT).phase = Phase.recovery :=
  ⟨(phase_monotone sApogee pEx DT).2.1 rfl, (phase_monotone sRecovery pEx DT).2.2 rfl⟩

/-- C8: every step appends exactly one sample, made of the new altitude, new
velocity, current mach and the new time, to the end of the trail, evicting
the oldest entry when the capacity (maxTrailPoints, default MAX_TRAIL = 500)
is exceeded; the output trail is a suffix of the input trail plus the new
sample, and a trail within capacity stays within capacity. -/
theorem trail_bounded_fifo (s : SimulationState) (p : SimulationParams) (dt : ℝ) :
    MAX_TRAIL = 500 ∧
    stepSample s p dt =
      { altitude := (stepSimulation s p dt).altitude,
        velocity := (stepSimulation s p dt).velocity, mach := (stepSimulation s p dt).mach,
        time := s.time + dt } ∧
    (stepSimulation s p dt).trail =
      (if p.maxTrailPoints.getD MAX_TRAIL < (s.trail ++ [stepSample s p dt]).length then
        (s.trail ++ [stepSample s p dt]).tail
       else s.trail ++ [stepSample s p dt]) ∧
    List.IsSuffix (stepSimulation s p dt).trail (s.trail ++ [stepSample s p dt]) ∧
    (s.trail.length ≤ p.maxTrailPoints.getD MAX_TRAIL →
      (stepSimulation s p dt).trail.length ≤ p.maxTrailPoints.getD MAX_TRAIL) := by
  refine ⟨rfl, rfl, step_trail s p dt, ?_, ?_⟩
  · rw [step_trail]
    split_ifs
    · exact List.tail_suffix _
    · exact List.suffix_refl _
  · intro hlen
    rw [step_trail]
    split_ifs with hover
    · simp only [List.length_tail, List.length_append, List.length_singleton]
      omega
    · simp only [List.length_append, List.length_singleton] at hover ⊢
      omega

/-- C8 witness: from the empty trail of the initial state. -/
theorem trail_bounded_fifo_witness :
    (createSimulationState pEx).trail.length ≤ pEx.maxTrailPoints.getD MAX_TRAIL ∧
    (stepSimulation (createSimulationState pEx) pEx DT).trail.length ≤
      pEx.maxTrailPoints.getD MAX_TRAIL :=
  ⟨by simp [createSimulationState, initialState],
    (trail_bounded_fifo (createSimulationState pEx) pEx DT).2.2.2.2
      (by simp [createSimulationState, initialState])⟩

/-- C6: when the motor identifier does not resolve, getSimParams is none, the
run route reports an error value instead of a result, and the pre-launch
analysis is still a complete record, computed with motor mass 0.03. -/
theorem unknown_motor_behavior (design : RocketDesign)
    (hm : getMotor design.motorId = none) :
    getSimParams design = none ∧
    runTrajectory design = Except.error ("Invalid motor or design") ∧
    getPreLaunchResults design = preLaunchResultsWithMotorMass design 0.03 := by
  have hp : getSimParams design = none := by
    unfold getSimParams
    rw [hm]
  refine ⟨hp, ?_, ?_⟩
  · unfold runTrajectory
    rw [hp]
  · unfold getPreLaunchResults preLaunchResultsWithMotorMass
    rw [hm]

/-- C6 witness: the example design naming the missing motor. -/
theorem unknown_motor_behavior_witness :
    getSimParams dExGhost = none ∧
    runTrajectory dExGhost = Except.error ("Invalid motor or design") :=
  ⟨(unknown_motor_behavior dExGhost rfl).1, (unknown_motor_behavior dExGhost rfl).2.1⟩

end RocketSim

end
